import Mathlib

/-!
Verification of the CONNECT MITM forward proxy
(`src/2022/go-and-proxies/connect-mitm-proxy.go`).

The Go program is embedded shallowly:

* X.509 certificates are records holding exactly the fields the program
  reads or writes (`x509.Certificate` template fields, issuer, subject).
* The Go standard-library serialization calls (`pem.EncodeToMemory`,
  `pem.Decode`, `x509.CreateCertificate`, `x509.ParseCertificate`,
  `x509.ParsePKCS8PrivateKey`) are modelled at the level of their
  documented contracts: PEM "memory" is a list of items, each either a
  well-formed PEM block or non-PEM junk, DER payloads carry the encoded
  information, and the parsers are the partial inverses of the encoders.
* Side effects of the handlers (`ServeHTTP`, `proxyConnect`) are made
  explicit as a trace of events plus a final outcome.  `log.Fatal`
  (process termination) is a distinguished outcome, as opposed to an
  ordinary handler return that leaves the listener serving.
* Randomness (`ecdsa.GenerateKey`, `rand.Int`) and the network and OS
  environment (dial results, hijack support, file contents, the clock)
  are inputs, packaged in environment records.
-/

/-- `time.Hour` in Go, in nanoseconds (`time.Duration` counts nanoseconds). -/
def timeHour : Int := 3600000000000

/-- `x509.KeyUsageDigitalSignature` (bit 0 of the Go `KeyUsage` bitmask). -/
def keyUsageDigitalSignature : Nat := 1

/-- `x509.ExtKeyUsageServerAuth` (Go constant value 1). -/
def extKeyUsageServerAuth : Nat := 1

/-- `x509.ExtKeyUsageClientAuth` (Go constant value 2). -/
def extKeyUsageClientAuth : Nat := 2

/-- The fields of `pkix.Name` the program uses. -/
structure PkixName where
  organization : List String
  commonName : String
  deriving DecidableEq, Repr

/-- An X.509 certificate, restricted to the fields the program sets or
reads: the template fields of `createCert` plus the issuer name that
`x509.CreateCertificate` copies from the parent certificate and the
`IsCA` flag the loader logs. -/
structure X509Certificate where
  serialNumber : Nat
  subject : PkixName
  issuer : PkixName
  dnsNames : List String
  notBefore : Int
  notAfter : Int
  keyUsage : Nat
  extKeyUsage : List Nat
  basicConstraintsValid : Bool
  isCA : Bool
  deriving DecidableEq, Repr

/-- Payload of a PEM block: DER bytes carrying either a certificate or a
PKCS#8 private key (keys are identified by the number drawn for them). -/
inductive PEMPayload where
  | certDER (c : X509Certificate)
  | keyDER (k : Nat)
  deriving DecidableEq, Repr

/-- `pem.Block`: a type label and the DER payload. -/
structure PEMBlock where
  type : String
  bytes : PEMPayload
  deriving DecidableEq, Repr

/-- One region of a byte stream fed to `pem.Decode`: either a well-formed
PEM block or bytes in which no PEM block can be found. -/
inductive PEMItem where
  | junk (s : String)
  | block (b : PEMBlock)
  deriving DecidableEq, Repr

/-- PEM-encoded "memory" (the `[]byte` values the program passes around):
a sequence of PEM blocks possibly interleaved with non-PEM bytes. -/
abbrev PEMBytes := List PEMItem

/-- `pem.EncodeToMemory`: the PEM encoding of a single block. -/
def pemEncodeToMemory (b : PEMBlock) : PEMBytes := [.block b]

/-- `pem.Decode`: finds the next PEM block in the input, returning it and
the rest of the input; returns `none` when no PEM block is present
(Go returns a nil `*pem.Block` in that case). -/
def pemDecode : PEMBytes → Option PEMBlock × PEMBytes
  | [] => (none, [])
  | .junk _ :: rest => pemDecode rest
  | .block b :: rest => (some b, rest)

/-- `x509.ParseCertificate`: inverts the DER certificate encoding, failing
on bytes that do not encode a certificate. -/
def x509ParseCertificate : PEMPayload → Except String X509Certificate
  | .certDER c => .ok c
  | .keyDER _ => .error "x509: malformed certificate"

/-- `x509.ParsePKCS8PrivateKey`: inverts the PKCS#8 encoding, failing on
bytes that do not encode a private key. -/
def x509ParsePKCS8PrivateKey : PEMPayload → Except String Nat
  | .certDER _ => .error "x509: failed to parse private key"
  | .keyDER k => .ok k

/-- The certificate template built in `createCert` (source lines 63-75):
random serial, subject organization `"My Corp"`, the requested DNS names,
`NotBefore = now`, `NotAfter = now + hoursValid * time.Hour`, key usage
digital signature, extended key usage server+client auth,
`BasicConstraintsValid = true`, and `IsCA` left at its zero value. -/
def certTemplate (dnsNames : List String) (serial : Nat) (now : Int)
    (hoursValid : Int) : X509Certificate :=
  { serialNumber := serial
    subject := { organization := ["My Corp"], commonName := "" }
    issuer := { organization := [], commonName := "" }
    dnsNames := dnsNames
    notBefore := now
    notAfter := now + hoursValid * timeHour
    keyUsage := keyUsageDigitalSignature
    extKeyUsage := [extKeyUsageServerAuth, extKeyUsageClientAuth]
    basicConstraintsValid := true
    isCA := false }

/-- `x509.CreateCertificate`: signs the template with the parent,
producing DER whose certificate carries the template's fields with the
issuer name taken from the parent's subject. -/
def x509CreateCertificate (template parent : X509Certificate) : X509Certificate :=
  { template with issuer := parent.subject }

/-- The leaf certificate `createCert` issues, given the serial number
drawn from `rand.Int` and the time `time.Now()` returned. -/
def createdLeaf (dnsNames : List String) (parent : X509Certificate)
    (serial : Nat) (now : Int) (hoursValid : Int) : X509Certificate :=
  x509CreateCertificate (certTemplate dnsNames serial now hoursValid) parent

/-- `createCert` (source lines 50-96), on the path where key generation,
serial-number generation, signing and marshalling all succeed: returns the
PEM encodings of the DER certificate (`"CERTIFICATE"` block) and of the
PKCS#8 private key (`"PRIVATE KEY"` block).  The fresh ECDSA key and the
serial number are random inputs, passed as `keyId` and `serial`. -/
def createCert (dnsNames : List String) (parent : X509Certificate)
    (hoursValid : Int) (keyId : Nat) (serial : Nat) (now : Int) :
    PEMBytes × PEMBytes :=
  (pemEncodeToMemory { type := "CERTIFICATE",
                       bytes := .certDER (createdLeaf dnsNames parent serial now hoursValid) },
   pemEncodeToMemory { type := "PRIVATE KEY", bytes := .keyDER keyId })

/-- Result of `loadX509KeyPair`: success, an error return, or a runtime
panic (nil-pointer dereference). -/
inductive LoadResult where
  | ok (cert : X509Certificate) (key : Nat)
  | fileError (file : String)
  | certParseError (msg : String)
  | keyParseError (msg : String)
  | nilDeref
  deriving DecidableEq, Repr

/-- `loadX509KeyPair` (source lines 98-121).  The file system is an input
mapping file names to contents (`none` = `ioutil.ReadFile` fails).  The
source calls `pem.Decode` and immediately dereferences the returned block
pointer (`certBlock.Bytes`, `keyBlock.Bytes`) without a nil check, so an
input in which no PEM block is found causes a nil-pointer dereference,
modelled as `LoadResult.nilDeref`. -/
def loadX509KeyPair (fs : String → Option PEMBytes)
    (certFile keyFile : String) : LoadResult :=
  match fs certFile with
  | none => .fileError certFile
  | some cf =>
    match fs keyFile with
    | none => .fileError keyFile
    | some kf =>
      match (pemDecode cf).1 with
      | none => .nilDeref
      | some certBlock =>
        match x509ParseCertificate certBlock.bytes with
        | .error e => .certParseError e
        | .ok cert =>
          match (pemDecode kf).1 with
          | none => .nilDeref
          | some keyBlock =>
            match x509ParsePKCS8PrivateKey keyBlock.bytes with
            | .error e => .keyParseError e
            | .ok key => .ok cert key

/-- An observable action of the request handlers. -/
inductive Event where
  | dialAttempt (hostPort : String)
  | dialSuccess
  | respond (status : Nat) (body : String)
  | hijack
  | certIssued (c : X509Certificate)
  | writeRaw (s : String)
  | handshakeStart
  | handshakeDone
  | copyLoopStarted (clientToUpstream : Bool)
  deriving DecidableEq, Repr

/-- How a handler invocation ends: an ordinary return (the listener keeps
accepting connections) or process termination through `log.Fatal`. -/
inductive Outcome where
  | returned
  | fatalExit (msg : String)
  deriving DecidableEq, Repr

/-- `forwardProxy`: the CA certificate and key loaded at startup. -/
structure ForwardProxy where
  caCert : X509Certificate
  caKey : Nat
  deriving Repr

/-- The per-request environment: the request line and everything the
outside world decides during one invocation of the handler — the dial
result, hijack support and result, `net.SplitHostPort`, the random draws
inside `createCert`, success of the remaining fallible steps, and the
clock. -/
structure ProxyEnv where
  reqMethod : String
  reqHost : String
  dialResult : Except String Unit
  hijackSupported : Bool
  hijackOk : Bool
  splitResult : Except String String
  keyGenOk : Bool
  keyId : Nat
  serialGenOk : Bool
  serialValue : Nat
  signOk : Bool
  marshalOk : Bool
  x509KeyPairOk : Bool
  writeOk : Bool
  handshakeOk : Bool
  now : Int
  deriving Repr

/-- The literal status line written on the hijacked plaintext stream
(source line 178). -/
def ok200 : String := "HTTP/1.1 200 OK\r\n\r\n"

/-- `proxyConnect` (source lines 149-219) as a trace of events plus an
outcome, following the source line by line: dial (failure responds 503
with the dial error as body and returns); hijacker interface check and
`Hijack()` (failures are `log.Fatal`); `net.SplitHostPort` (failure is
`log.Fatal`); `createCert` with `hoursValid = 240` (its four internal
failures are `log.Fatalf`); `tls.X509KeyPair` (failure is `log.Fatal`);
writing `"HTTP/1.1 200 OK\r\n\r\n"` (failure is `log.Fatal`); the TLS
handshake (failure is `log.Fatal`).  After a successful handshake the
source does `_ = targetConn` and returns: no copy loop is started. -/
def proxyConnect (p : ForwardProxy) (env : ProxyEnv) : List Event × Outcome :=
  match env.dialResult with
  | .error e =>
    ([.dialAttempt env.reqHost, .respond 503 e], .returned)
  | .ok _ =>
    let ev := [Event.dialAttempt env.reqHost, Event.dialSuccess]
    if !env.hijackSupported then
      (ev, .fatalExit "http server doesn't support hijacking connection")
    else if !env.hijackOk then
      (ev, .fatalExit "http hijacking failed")
    else
      let ev := ev ++ [Event.hijack]
      match env.splitResult with
      | .error e => (ev, .fatalExit ("error splitting host/port:" ++ e))
      | .ok host =>
        if !env.keyGenOk then
          (ev, .fatalExit "Failed to generate private key")
        else if !env.serialGenOk then
          (ev, .fatalExit "Failed to generate serial number")
        else if !env.signOk then
          (ev, .fatalExit "Failed to create certificate")
        else if !env.marshalOk then
          (ev, .fatalExit "Unable to marshal private key")
        else
          let leaf := createdLeaf [host] p.caCert env.serialValue env.now 240
          let ev := ev ++ [Event.certIssued leaf]
          if !env.x509KeyPairOk then
            (ev, .fatalExit "tls: failed to build X509KeyPair")
          else if !env.writeOk then
            (ev, .fatalExit "error writing status to client:")
          else
            let ev := ev ++ [Event.writeRaw ok200, Event.handshakeStart]
            if !env.handshakeOk then
              (ev, .fatalExit "error handshake")
            else
              (ev ++ [Event.handshakeDone], .returned)

/-- `ServeHTTP` (source lines 141-147): CONNECT requests go to
`proxyConnect`; every other method gets
`http.Error(w, "this proxy only supports CONNECT", 405)`. -/
def serveHTTP (p : ForwardProxy) (env : ProxyEnv) : List Event × Outcome :=
  if env.reqMethod = "CONNECT" then
    proxyConnect p env
  else
    ([.respond 405 "this proxy only supports CONNECT"], .returned)

/-- `true` when, scanning `l` left to right, an occurrence of `a` is met
before any occurrence of `b` (vacuously `true` when `b` never occurs). -/
def beforeFirst (a b : Event) : List Event → Bool
  | [] => true
  | x :: xs => if x = b then false else if x = a then true else beforeFirst a b xs

/-- Whether an event is a write of raw (pre-TLS plaintext) bytes. -/
def isWriteRaw : Event → Bool
  | .writeRaw _ => true
  | _ => false

/-- Whether an event starts a relay copy loop. -/
def isCopyLoop : Event → Bool
  | .copyLoopStarted _ => true
  | _ => false

/-- Whether all fallible steps of `proxyConnect` after the dial succeed
in the given environment. -/
def postDialOk (env : ProxyEnv) : Prop :=
  env.hijackSupported = true ∧ env.hijackOk = true ∧
  (∃ h, env.splitResult = .ok h) ∧
  env.keyGenOk = true ∧ env.serialGenOk = true ∧ env.signOk = true ∧
  env.marshalOk = true ∧ env.x509KeyPairOk = true ∧ env.writeOk = true ∧
  env.handshakeOk = true

instance (env : ProxyEnv) : Decidable (postDialOk env) := by
  unfold postDialOk
  have : Decidable (∃ h, env.splitResult = .ok h) := by
    cases hs : env.splitResult with
    | error e => exact .isFalse (by simp [hs])
    | ok h => exact .isTrue ⟨h, rfl⟩
  exact inferInstance

/-- All fallible steps of `proxyConnect` succeed: the dial and every
post-dial step. -/
def allStepsOk (env : ProxyEnv) : Prop :=
  (∃ u, env.dialResult = .ok u) ∧ postDialOk env

/-- Whether an event is an HTTP-layer response through the
`http.ResponseWriter`. -/
def isRespond : Event → Bool
  | .respond _ _ => true
  | _ => false

/-- A sample root authority for concrete instantiations. -/
def sampleCA : X509Certificate :=
  { serialNumber := 1
    subject := { organization := ["Test CA"], commonName := "Test CA Root" }
    issuer := { organization := ["Test CA"], commonName := "Test CA Root" }
    dnsNames := []
    notBefore := 0
    notAfter := 1000000000000000000
    keyUsage := 1
    extKeyUsage := []
    basicConstraintsValid := true
    isCA := true }

/-- A proxy built from the sample authority. -/
def sampleProxy : ForwardProxy := { caCert := sampleCA, caKey := 5 }

/-- An environment in which every step of `proxyConnect` succeeds. -/
def envOK : ProxyEnv :=
  { reqMethod := "CONNECT"
    reqHost := "example.com:443"
    dialResult := .ok ()
    hijackSupported := true
    hijackOk := true
    splitResult := .ok "example.com"
    keyGenOk := true
    keyId := 7
    serialGenOk := true
    serialValue := 99
    signOk := true
    marshalOk := true
    x509KeyPairOk := true
    writeOk := true
    handshakeOk := true
    now := 1000 }

/-- Like `envOK` but the response writer does not support hijacking. -/
def envNoHijack : ProxyEnv := { envOK with hijackSupported := false }

/-- Like `envOK` but with a non-CONNECT request method. -/
def envGET : ProxyEnv := { envOK with reqMethod := "GET" }

/-- Like `envOK` but the upstream dial fails. -/
def envDialFail : ProxyEnv := { envOK with dialResult := .error "connection refused" }

/-- A file system in which the certificate file is readable but contains
no valid PEM block, and the key file holds a well-formed key block. -/
def badFS : String → Option PEMBytes := fun f =>
  if f = "ca.crt" then some [.junk "this is not a PEM file"]
  else if f = "ca.key" then some [.block { type := "PRIVATE KEY", bytes := .keyDER 5 }]
  else none

/-- Claim C1: for every valid CA pair, non-empty host-name list and
validity duration, `createCert` returns a certificate whose issuer
distinguished name equals the CA's subject, whose validity satisfies
`NotBefore ≤ now ≤ NotAfter` with `NotAfter = NotBefore + validity`,
whose DNS-name list equals exactly the requested hosts, with subject
organization the fixed placeholder `"My Corp"`, key usage digital
signature, extended key usage server auth and client auth, and
`BasicConstraintsValid = true` with the leaf not a CA. -/
theorem createCert_issues_correct_leaf (dnsNames : List String)
    (parent : X509Certificate) (hoursValid : Int) (keyId serial : Nat)
    (now : Int) (_hCA : parent.isCA = true) (_hne : dnsNames ≠ [])
    (hv : 0 ≤ hoursValid) :
    ∃ c : X509Certificate,
      (pemDecode (createCert dnsNames parent hoursValid keyId serial now).1).1 =
        some { type := "CERTIFICATE", bytes := .certDER c } ∧
      c.issuer = parent.subject ∧
      c.notBefore ≤ now ∧ now ≤ c.notAfter ∧
      c.notAfter = c.notBefore + hoursValid * timeHour ∧
      c.dnsNames = dnsNames ∧
      c.subject.organization = ["My Corp"] ∧
      c.keyUsage = keyUsageDigitalSignature ∧
      c.extKeyUsage = [extKeyUsageServerAuth, extKeyUsageClientAuth] ∧
      c.basicConstraintsValid = true ∧
      c.isCA = false := by
  refine ⟨createdLeaf dnsNames parent serial now hoursValid,
    rfl, rfl, le_refl _, ?_, rfl, rfl, rfl, rfl, rfl, rfl, rfl⟩
  show now ≤ now + hoursValid * timeHour
  have ht : (0 : Int) ≤ timeHour := by norm_num [timeHour]
  have : 0 ≤ hoursValid * timeHour := mul_nonneg hv ht
  omega

/-- Witness for C1: the concrete instantiation at the sample CA,
host list `["example.com"]` and validity 240 hours. -/
theorem createCert_issues_correct_leaf_witness :
    ∃ c : X509Certificate,
      (pemDecode (createCert ["example.com"] sampleCA 240 7 99 1000).1).1 =
        some { type := "CERTIFICATE", bytes := .certDER c } ∧
      c.issuer = sampleCA.subject ∧
      c.notBefore ≤ 1000 ∧ (1000 : Int) ≤ c.notAfter ∧
      c.notAfter = c.notBefore + 240 * timeHour ∧
      c.dnsNames = ["example.com"] ∧
      c.subject.organization = ["My Corp"] ∧
      c.keyUsage = keyUsageDigitalSignature ∧
      c.extKeyUsage = [extKeyUsageServerAuth, extKeyUsageClientAuth] ∧
      c.basicConstraintsValid = true ∧
      c.isCA = false :=
  createCert_issues_correct_leaf ["example.com"] sampleCA 240 7 99 1000
    rfl (by simp) (by norm_num)

/-- Counterexample to claim C2: in an environment whose response writer
does not support hijacking, `proxyConnect` terminates the whole process
through `log.Fatal` and sends no per-request 5xx response, contradicting
the claim that every error other than a CA-load failure is scoped to the
single connection. -/
theorem hijack_unsupported_terminates_process :
    serveHTTP sampleProxy envNoHijack =
      ([.dialAttempt "example.com:443", .dialSuccess],
       .fatalExit "http server doesn't support hijacking connection") ∧
    (serveHTTP sampleProxy envNoHijack).1.filter isRespond = [] := by
  constructor <;> rfl

/-- Claim C2 as amended: for a CONNECT request, the handler returns
normally (listener keeps serving) exactly when either the upstream dial
fails (503 path) or every step succeeds; every post-dial failure —
hijack unsupported, hijack error, host/port split error, key, serial,
signing or marshalling failure inside `createCert`, `tls.X509KeyPair`
failure, client write failure, TLS handshake failure — terminates the
process via `log.Fatal`. -/
theorem only_dial_failure_is_connection_scoped (p : ForwardProxy)
    (env : ProxyEnv) (hm : env.reqMethod = "CONNECT") :
    ((serveHTTP p env).2 = .returned ↔
      (∃ e, env.dialResult = .error e) ∨ allStepsOk env) := by
  unfold serveHTTP proxyConnect allStepsOk postDialOk
  rw [if_pos hm]
  repeat' split
  all_goals simp_all

/-- Witness for the amended C2: at the all-success environment the
handler returns normally. -/
theorem only_dial_failure_is_connection_scoped_witness :
    (serveHTTP sampleProxy envOK).2 = .returned :=
  (only_dial_failure_is_connection_scoped sampleProxy envOK rfl).2
    (Or.inr ⟨⟨(), rfl⟩, rfl, rfl, ⟨"example.com", rfl⟩,
      rfl, rfl, rfl, rfl, rfl, rfl, rfl⟩)

/-- Counterexample to claim C3: in an environment where the upstream
connection and the client TLS handshake are both established, the
handler returns with no copy loop ever started — the source discards
`targetConn` (`_ = targetConn`) and never relays. -/
theorem established_tunnel_starts_no_copy_loops :
    (serveHTTP sampleProxy envOK).2 = .returned ∧
    Event.handshakeDone ∈ (serveHTTP sampleProxy envOK).1 ∧
    (serveHTTP sampleProxy envOK).1.filter isCopyLoop = [] := by
  refine ⟨rfl, ?_, rfl⟩
  decide

/-- Claim C3 as amended: `proxyConnect` never starts a relay copy loop
in any environment; after a successful handshake it simply returns,
abandoning the tunnel. -/
theorem serveHTTP_never_starts_copy_loops (p : ForwardProxy)
    (env : ProxyEnv) :
    (serveHTTP p env).1.filter isCopyLoop = [] := by
  unfold serveHTTP proxyConnect
  repeat' split
  all_goals simp [isCopyLoop]

/-- Claim C4: in every environment, the synthetic 200 response is
written on the raw stream only after the upstream dial has succeeded,
and the client-facing TLS handshake starts only after that 200 response
has been written. -/
theorem write200_after_dial_handshake_after_write200 (p : ForwardProxy)
    (env : ProxyEnv) :
    beforeFirst .dialSuccess (.writeRaw ok200) (serveHTTP p env).1 = true ∧
    beforeFirst (.writeRaw ok200) .handshakeStart (serveHTTP p env).1 = true := by
  unfold serveHTTP proxyConnect
  repeat' split
  all_goals simp [beforeFirst]

/-- Claim C5: every request whose method is not CONNECT is answered
with `405 Method Not Allowed` and the handler neither dials the
upstream target nor hijacks the client connection. -/
theorem non_connect_gets_405_without_dial_or_hijack (p : ForwardProxy)
    (env : ProxyEnv) (hm : env.reqMethod ≠ "CONNECT") :
    serveHTTP p env = ([.respond 405 "this proxy only supports CONNECT"], .returned) ∧
    (∀ h, Event.dialAttempt h ∉ (serveHTTP p env).1) ∧
    Event.hijack ∉ (serveHTTP p env).1 := by
  unfold serveHTTP
  rw [if_neg hm]
  simp

/-- Witness for C5: a GET request gets exactly the 405 response. -/
theorem non_connect_gets_405_without_dial_or_hijack_witness :
    serveHTTP sampleProxy envGET =
      ([.respond 405 "this proxy only supports CONNECT"], .returned) :=
  (non_connect_gets_405_without_dial_or_hijack sampleProxy envGET (by decide)).1

/-- Claim C6: when the upstream dial of a CONNECT request fails, the
handler responds `503 Service Unavailable` with the dial error as body,
never hijacks the connection, and returns normally so the listener keeps
serving. -/
theorem dial_failure_gets_503_before_hijack (p : ForwardProxy)
    (env : ProxyEnv) (e : String) (hm : env.reqMethod = "CONNECT")
    (hd : env.dialResult = .error e) :
    serveHTTP p env = ([.dialAttempt env.reqHost, .respond 503 e], .returned) ∧
    Event.hijack ∉ (serveHTTP p env).1 := by
  unfold serveHTTP proxyConnect
  rw [if_pos hm, hd]
  simp

/-- Witness for C6: a refused connection yields exactly the 503 trace. -/
theorem dial_failure_gets_503_before_hijack_witness :
    serveHTTP sampleProxy envDialFail =
      ([.dialAttempt "example.com:443", .respond 503 "connection refused"], .returned) :=
  (dial_failure_gets_503_before_hijack sampleProxy envDialFail
    "connection refused" rfl rfl).1

/-- Counterexample to claim C7: the one plaintext byte string written on
the hijacked stream is `"HTTP/1.1 200 OK\r\n\r\n"`, which differs from
the claimed literal `"HTTP/1.1 200 Connection Established\r\n\r\n"`. -/
theorem raw_write_is_200_ok_not_connection_established :
    (serveHTTP sampleProxy envOK).1.filter isWriteRaw =
      [.writeRaw "HTTP/1.1 200 OK\r\n\r\n"] ∧
    "HTTP/1.1 200 OK\r\n\r\n" ≠ "HTTP/1.1 200 Connection Established\r\n\r\n" :=
  ⟨rfl, by decide⟩

/-- Claim C7 as amended: for every tunnel that reaches the handshake
stage, the one synthetic plaintext response written on the hijacked
stream before the TLS handshake is the literal byte string
`"HTTP/1.1 200 OK\r\n\r\n"`. -/
theorem single_raw_write_is_200_ok (p : ForwardProxy) (env : ProxyEnv)
    (h : Event.handshakeStart ∈ (serveHTTP p env).1) :
    (serveHTTP p env).1.filter isWriteRaw = [.writeRaw ok200] := by
  unfold serveHTTP proxyConnect at *
  repeat' split at h
  all_goals simp_all [isWriteRaw]

/-- Witness for the amended C7: the all-success environment reaches the
handshake and its only raw write is the 200 OK line. -/
theorem single_raw_write_is_200_ok_witness :
    (serveHTTP sampleProxy envOK).1.filter isWriteRaw = [.writeRaw ok200] :=
  single_raw_write_is_200_ok sampleProxy envOK (by decide)

/-- Claim C8 (code bug): on a readable certificate file containing no
valid PEM block, `loadX509KeyPair` dereferences the nil block returned
by `pem.Decode` and panics instead of returning the PEM-decode-failure
error the claim requires. -/
theorem loadX509KeyPair_nil_deref_on_non_pem_input :
    loadX509KeyPair badFS "ca.crt" "ca.key" = .nilDeref := rfl

/-- Claim C9: encoding the forged certificate and private key to PEM
and decoding them back yields a certificate whose serial number,
DNS-name list and validity window are identical to those of the
originally issued certificate, and recovers the same private key. -/
theorem createCert_pem_roundtrip_preserves_fields (dnsNames : List String)
    (parent : X509Certificate) (hoursValid : Int) (keyId serial : Nat)
    (now : Int) :
    ∃ (bc bk : PEMBlock) (c : X509Certificate) (k : Nat),
      (pemDecode (createCert dnsNames parent hoursValid keyId serial now).1).1 = some bc ∧
      (pemDecode (createCert dnsNames parent hoursValid keyId serial now).2).1 = some bk ∧
      x509ParseCertificate bc.bytes = .ok c ∧
      x509ParsePKCS8PrivateKey bk.bytes = .ok k ∧
      c.serialNumber = (createdLeaf dnsNames parent serial now hoursValid).serialNumber ∧
      c.dnsNames = (createdLeaf dnsNames parent serial now hoursValid).dnsNames ∧
      c.notBefore = (createdLeaf dnsNames parent serial now hoursValid).notBefore ∧
      c.notAfter = (createdLeaf dnsNames parent serial now hoursValid).notAfter ∧
      k = keyId :=
  ⟨_, _, _, _, rfl, rfl, rfl, rfl, rfl, rfl, rfl, rfl, rfl⟩

set_option maxHeartbeats 1000000 in
/-- Claim C10: every certificate forged during a CONNECT request is
valid for exactly 240 hours: its `NotAfter` equals its issuance time
(`NotBefore`, the current clock) plus `240 * time.Hour`, because
`proxyConnect` always calls `createCert` with `hoursValid = 240`. -/
theorem issued_cert_valid_for_240_hours (p : ForwardProxy)
    (env : ProxyEnv) (c : X509Certificate)
    (h : Event.certIssued c ∈ (serveHTTP p env).1) :
    c.notAfter = c.notBefore + 240 * timeHour ∧ c.notBefore = env.now ∧
    c.notAfter = env.now + 240 * timeHour := by
  unfold serveHTTP proxyConnect at h
  repeat' split at h
  all_goals simp only [List.mem_cons, List.mem_append, List.mem_singleton,
    List.not_mem_nil, or_false, false_or, reduceCtorEq, Event.certIssued.injEq] at h
  all_goals subst h
  all_goals exact ⟨rfl, rfl, rfl⟩

/-- Witness for C10: the certificate issued in the all-success
environment has a validity window of exactly 240 hours. -/
theorem issued_cert_valid_for_240_hours_witness :
    (createdLeaf ["example.com"] sampleCA 99 1000 240).notAfter =
      (createdLeaf ["example.com"] sampleCA 99 1000 240).notBefore + 240 * timeHour :=
  (issued_cert_valid_for_240_hours sampleProxy envOK
    (createdLeaf ["example.com"] sampleCA 99 1000 240) (by decide)).1
